import Mathlib

/-!
Verification of the static gallery generator (`staticgalgen.py`) against its
design specification.  The Python source is shallowly embedded: pure string
and list manipulation is translated directly, the filesystem and console are
modelled as an explicit effect trace, and the external image codec (PIL) is
modelled at its interface, with the codec's byte-producing JPEG encoder left
as a function parameter.
-/

namespace StaticGalGen

/-! ## Discovery (`get_image_files`, lines 42-48)

A directory listing is a list of entries; each entry has a name and a flag
saying whether it is a subdirectory.  `Path.iterdir` yields both files and
directories; the source filters purely by `file.suffix.lower()` and never
checks `is_file`. -/

/-- One entry of the input directory listing: its filename and whether it is
a subdirectory. -/
structure Entry where
  name : String
  isDir : Bool
deriving DecidableEq, Repr

/-- `IMAGE_EXTENSIONS` from line 15 of the source (as a list; Python uses a
set, but membership is all that is ever asked of it). -/
def IMAGE_EXTENSIONS : List String := [".jpg", ".jpeg", ".png", ".gif", ".webp"]

/-- Index of the last `'.'` in a character list, if any
(`str.rfind('.')` from `pathlib`). -/
def lastDotAux : List Char → Nat → Option Nat → Option Nat
  | [], _, acc => acc
  | c :: cs, i, acc => lastDotAux cs (i + 1) (if c = '.' then some i else acc)

/-- `pathlib.PurePath.suffix`: the substring from the last dot, provided that
dot is neither the first nor the last character of the name; otherwise `""`. -/
def path_suffix (name : String) : String :=
  match lastDotAux name.toList 0 none with
  | none => ""
  | some i =>
      if 0 < i ∧ i < name.toList.length - 1 then ⟨name.toList.drop i⟩ else ""

/-- `str.lower()` on the characters of a string (the extensions compared are
ASCII, where Python's `lower` and `Char.toLower` agree). -/
def strLower (s : String) : String := ⟨s.data.map Char.toLower⟩

/-- The filter applied by `get_image_files` (line 46):
`file.suffix.lower() in IMAGE_EXTENSIONS`.  Note there is no `is_file`
check, so the test applies to subdirectories as well. -/
def supportedEntry (e : Entry) : Bool :=
  IMAGE_EXTENSIONS.contains (strLower (path_suffix e.name))

/-- Lexicographic comparison of character lists by code point — Python's
string `<=`, which is what `sorted` on paths with a common parent uses. -/
def lexLE : List Char → List Char → Bool
  | [], _ => true
  | _ :: _, [] => false
  | a :: as, b :: bs =>
      if a.toNat < b.toNat then true
      else if b.toNat < a.toNat then false
      else lexLE as bs

/-- Ordering used by `sorted(Path(directory).iterdir())`: paths with a common
parent compare by filename string. -/
def entryLE (a b : Entry) : Prop := lexLE a.name.data b.name.data = true

instance : DecidableRel entryLE := fun a b =>
  inferInstanceAs (Decidable (lexLE a.name.data b.name.data = true))

/-- `get_image_files` (lines 42-48): iterate the sorted listing and keep the
entries whose lower-cased suffix is a supported image extension. -/
def get_image_files (entries : List Entry) : List Entry :=
  (List.insertionSort entryLE entries).filter supportedEntry

/-! ## Image codec model (`create_thumbnail`, lines 17-40)

PIL is the spec's external ImageCodec.  A decoded image is a color mode, a
size and a pixel list; every pixel carries four channels, with the alpha
channel meaningful only in the alpha-carrying modes.  The JPEG encoder's
byte output is a parameter `enc`; its documented mode restriction (JPEG has
no alpha support and PIL refuses non-writable modes) is part of the model
because the source's failure policy relies on it. -/

/-- PIL color modes that occur in this pipeline. -/
inductive PILMode
  | RGB | RGBA | L | LA | P | PA
deriving DecidableEq, Repr

/-- One pixel, four channels, each 0..255. -/
structure Px where
  r : Nat
  g : Nat
  b : Nat
  a : Nat
deriving DecidableEq, Repr

/-- Whether a mode carries an alpha channel. -/
def hasAlpha : PILMode → Bool
  | .RGBA | .LA | .PA => true
  | _ => false

/-- Modes PIL's JPEG encoder will write (`cannot write mode ... as JPEG`
otherwise). -/
def jpegWritable : PILMode → Bool
  | .L | .RGB => true
  | _ => false

/-- A decoded image: mode, dimensions, row-major pixels. -/
structure DecodedImage where
  mode : PILMode
  width : Nat
  height : Nat
  px : List Px
deriving DecidableEq, Repr

/-- Alpha blend of one channel over a white background,
`out = (fg * a + 255 * (255 - a)) / 255`. -/
def blendWhite (c a : Nat) : Nat := (c * a + 255 * (255 - a)) / 255

/-- One pixel pasted over opaque white using its own alpha as the mask
(`background.paste(img, mask=img.split()[3])`, line 24). -/
def compositePixelWhite (p : Px) : Px :=
  ⟨blendWhite p.r p.a, blendWhite p.g p.a, blendWhite p.b p.a, 255⟩

/-- Lines 22-25: paste the image over a white RGB background of the same
size; the result's mode is RGB. -/
def compositeWhite (img : DecodedImage) : DecodedImage :=
  { img with mode := .RGB, px := img.px.map compositePixelWhite }

/-- Lines 22-25 as a step: the source flattens exactly when `img.mode ==
'RGBA'`; every other mode passes through unchanged. -/
def flattenStep (img : DecodedImage) : DecodedImage :=
  if img.mode = .RGBA then compositeWhite img else img

/-- Nearest-neighbour sample of the pixel grid at the new size.  The codec's
Lanczos filter is external (out of the spec's scope); only the mode and the
fitted dimensions matter downstream, so a simple resample stands in for it. -/
def resamplePx (img : DecodedImage) (w h : Nat) : List Px :=
  (List.range (w * h)).map fun k =>
    img.px.getD ((k / w) * img.height / h * img.width + (k % w) * img.width / w)
      ⟨0, 0, 0, 255⟩

/-- `img.thumbnail((max_size, max_size), LANCZOS)` (line 28): aspect-fit the
image within the bounding square, never upscaling; images already within
bounds are untouched. -/
def pilThumbnail (img : DecodedImage) (maxSize : Nat) : DecodedImage :=
  if img.width ≤ maxSize ∧ img.height ≤ maxSize then img
  else
    let w := if img.width ≥ img.height then maxSize
             else max 1 (img.width * maxSize / img.height)
    let h := if img.width ≥ img.height then max 1 (img.height * maxSize / img.width)
             else maxSize
    { img with width := w, height := h, px := resamplePx img w h }

/-- The JPEG encoder's byte output, abstract: image, quality, optimize flag. -/
def EncodeFn : Type := DecodedImage → Nat → Bool → List Nat

/-- `img.save(buffer, format='JPEG', quality=q, optimize=opt)` (line 32):
fails on a mode JPEG cannot hold, otherwise yields the codec's bytes. -/
def jpegEncode (enc : EncodeFn) (img : DecodedImage) (q : Nat) (opt : Bool) :
    Option (List Nat) :=
  if jpegWritable img.mode then some (enc img q opt) else none

/-- The base64 alphabet, RFC 4648. -/
def b64Alphabet : List Char :=
  "ABCDEFGHIJKLMNOPQRSTUVWXYZabcdefghijklmnopqrstuvwxyz0123456789+/".toList

/-- Character for one 6-bit group. -/
def b64Char (n : Nat) : Char := b64Alphabet.getD n 'A'

/-- `base64.b64encode` (line 36) over a byte list, with `=` padding. -/
def base64Encode : List Nat → String
  | [] => ""
  | [a] =>
      let a := a % 256
      ⟨[b64Char (a / 4), b64Char (a % 4 * 16), '=', '=']⟩
  | [a, b] =>
      let a := a % 256
      let b := b % 256
      ⟨[b64Char (a / 4), b64Char (a % 4 * 16 + b / 16), b64Char (b % 16 * 4), '=']⟩
  | a :: b :: c :: rest =>
      let a := a % 256
      let b := b % 256
      let c := c % 256
      (⟨[b64Char (a / 4), b64Char (a % 4 * 16 + b / 16),
         b64Char (b % 16 * 4 + c / 64), b64Char (c % 64)]⟩ : String)
        ++ base64Encode rest

/-- `create_thumbnail` (lines 17-40): decode (a `none` input is a decode
failure), flatten RGBA over white, aspect-fit to the bounding size, JPEG
encode at quality 85 with `optimize=True`, and wrap the bytes as a
`data:image/jpeg;base64,...` URI.  Any failure yields `none` (the source
catches the exception, logs, and returns `None`; the log line lives in the
effect-trace model below). -/
def create_thumbnail (enc : EncodeFn) (decoded : Option DecodedImage)
    (maxSize : Nat := 400) : Option String :=
  match decoded with
  | none => none
  | some img =>
      let fitted := pilThumbnail (flattenStep img) maxSize
      match jpegEncode enc fitted 85 true with
      | none => none
      | some bytes => some ("data:image/jpeg;base64," ++ base64Encode bytes)

/-! ## Template rendering (`generate_html_template`, lines 91-371)

The f-string template is a fixed concatenation of five literal segments with
the title (twice), the grid markup and the script array interpolated between
them, character for character, with no escaping. -/

/-- A gallery entry as built on lines 73-78: inline thumbnail data URI,
relative full-size path, display name (file stem), and index field. -/
structure GalleryItem where
  thumb : String
  full : String
  name : String
  index : Nat
deriving DecidableEq, Repr

/-- Python `sep.join(parts)`. -/
def joinSep (sep : String) : List String → String
  | [] => ""
  | [x] => x
  | x :: y :: xs => x ++ sep ++ joinSep sep (y :: xs)

/-- One grid cell (lines 96-98): the entry's `index` field is embedded both
as `data-index` and as the `openLightbox` argument, the thumbnail as the
image source, the display name as alt text. -/
def cellString (item : GalleryItem) : String :=
  "        <div class=\"gallery-item\" data-index=\"" ++ toString item.index
    ++ "\" onclick=\"openLightbox(" ++ toString item.index
    ++ ")\">\n            <img src=\"" ++ item.thumb
    ++ "\" " ++ ("alt=\"" ++ item.name ++ "\"")
    ++ " loading=\"lazy\">\n        </div>"

/-- `items_html` (lines 95-100): the cells joined by newlines, in list
order. -/
def items_html (items : List GalleryItem) : String :=
  joinSep "\n" (items.map cellString)

/-- `images_json` (lines 103-105): the client-side array literal of full-size
reference paths, one double-quoted entry per item, in list order. -/
def images_json (items : List GalleryItem) : String :=
  "[" ++ joinSep "," (items.map fun it => "\"" ++ it.full ++ "\"") ++ "]"

/-- Template segment up to the `<title>` interpolation. -/
def tplA : String :=
  "<!DOCTYPE html>
<html lang=\"en\">
<head>
    <meta charset=\"UTF-8\">
    <meta name=\"viewport\" content=\"width=device-width, initial-scale=1.0\">
    <title>"

/-- Template segment between the two title interpolations: the style sheet and the opening of the body, ending inside `<h1>`. -/
def tplB : String :=
  "</title>
    <style>
        * \x7b
            margin: 0;
            padding: 0;
            box-sizing: border-box;
        \x7d

        body \x7b
            font-family: -apple-system, BlinkMacSystemFont, \x27Segoe UI\x27, Roboto, Oxygen, Ubuntu, Cantarell, sans-serif;
            background: #0a0a0a;
            color: #fff;
            overflow-x: hidden;
        \x7d

        header \x7b
            padding: 2rem;
            text-align: center;
            background: linear-gradient(180deg, #1a1a1a 0%, #0a0a0a 100%);
        \x7d

        h1 \x7b
            font-size: 2.5rem;
            font-weight: 300;
            letter-spacing: 0.05em;
        \x7d

        .gallery-grid \x7b
            display: grid;
            grid-template-columns: repeat(auto-fill, minmax(280px, 1fr));
            gap: 1.5rem;
            padding: 2rem;
            max-width: 1600px;
            margin: 0 auto;
        \x7d

        .gallery-item \x7b
            position: relative;
            aspect-ratio: 1;
            overflow: hidden;
            border-radius: 8px;
            cursor: pointer;
            background: #1a1a1a;
            transition: transform 0.3s ease, box-shadow 0.3s ease;
        \x7d

        .gallery-item:hover \x7b
            transform: translateY(-4px);
            box-shadow: 0 12px 24px rgba(0, 0, 0, 0.5);
        \x7d

        .gallery-item img \x7b
            width: 100%;
            height: 100%;
            object-fit: cover;
            transition: transform 0.3s ease;
        \x7d

        .gallery-item:hover img \x7b
            transform: scale(1.05);
        \x7d

        /* Lightbox */
        .lightbox \x7b
            display: none;
            position: fixed;
            top: 0;
            left: 0;
            width: 100%;
            height: 100%;
            background: rgba(0, 0, 0, 0.95);
            z-index: 1000;
            opacity: 0;
            transition: opacity 0.3s ease;
        \x7d

        .lightbox.active \x7b
            display: flex;
            align-items: center;
            justify-content: center;
            opacity: 1;
        \x7d

        .lightbox-content \x7b
            max-width: 90vw;
            max-height: 90vh;
            position: relative;
        \x7d

        .lightbox-image \x7b
            max-width: 100%;
            max-height: 90vh;
            object-fit: contain;
            border-radius: 4px;
        \x7d

        .lightbox-close \x7b
            position: fixed;
            top: 2rem;
            right: 2rem;
            font-size: 2rem;
            color: #fff;
            cursor: pointer;
            width: 40px;
            height: 40px;
            display: flex;
            align-items: center;
            justify-content: center;
            background: rgba(255, 255, 255, 0.1);
            border-radius: 50%;
            transition: background 0.2s ease;
            z-index: 1001;
        \x7d

        .lightbox-close:hover \x7b
            background: rgba(255, 255, 255, 0.2);
        \x7d

        .lightbox-nav \x7b
            position: fixed;
            top: 50%;
            transform: translateY(-50%);
            font-size: 2rem;
            color: #fff;
            cursor: pointer;
            width: 50px;
            height: 50px;
            display: flex;
            align-items: center;
            justify-content: center;
            background: rgba(255, 255, 255, 0.1);
            border-radius: 50%;
            transition: background 0.2s ease;
            z-index: 1001;
        \x7d

        .lightbox-nav:hover \x7b
            background: rgba(255, 255, 255, 0.2);
        \x7d

        .lightbox-prev \x7b
            left: 2rem;
        \x7d

        .lightbox-next \x7b
            right: 2rem;
        \x7d

        .lightbox-counter \x7b
            position: fixed;
            bottom: 2rem;
            left: 50%;
            transform: translateX(-50%);
            color: #fff;
            font-size: 0.9rem;
            background: rgba(0, 0, 0, 0.5);
            padding: 0.5rem 1rem;
            border-radius: 20px;
            z-index: 1001;
        \x7d

        @media (max-width: 768px) \x7b
            .gallery-grid \x7b
                grid-template-columns: repeat(auto-fill, minmax(150px, 1fr));
                gap: 1rem;
                padding: 1rem;
            \x7d

            h1 \x7b
                font-size: 1.8rem;
            \x7d

            .lightbox-nav \x7b
                width: 40px;
                height: 40px;
                font-size: 1.5rem;
            \x7d

            .lightbox-prev \x7b
                left: 1rem;
            \x7d

            .lightbox-next \x7b
                right: 1rem;
            \x7d
        \x7d
    </style>
</head>
<body>
    <header>
        <h1>"

/-- Template segment between the heading title and the grid cells. -/
def tplC : String :=
  "</h1>
    </header>

    <div class=\"gallery-grid\">
"

/-- Template segment between the grid and the script's `images` array literal. -/
def tplD : String :=
  "
    </div>

    <div class=\"lightbox\" id=\"lightbox\">
        <div class=\"lightbox-close\" onclick=\"closeLightbox()\">×</div>
        <div class=\"lightbox-nav lightbox-prev\" onclick=\"changeImage(-1)\">‹</div>
        <div class=\"lightbox-nav lightbox-next\" onclick=\"changeImage(1)\">›</div>
        <div class=\"lightbox-content\">
            <img class=\"lightbox-image\" id=\"lightbox-image\" src=\"\" alt=\"\">
        </div>
        <div class=\"lightbox-counter\" id=\"lightbox-counter\"></div>
    </div>

    <script>
        const images = "

/-- Template segment after the `images` array: the lightbox script and the closing tags. -/
def tplE : String :=
  ";
        let currentIndex = 0;

        function openLightbox(index) \x7b
            currentIndex = index;
            showImage();
            const lightbox = document.getElementById(\x27lightbox\x27);
            lightbox.classList.add(\x27active\x27);
            document.body.style.overflow = \x27hidden\x27;
        \x7d

        function closeLightbox() \x7b
            const lightbox = document.getElementById(\x27lightbox\x27);
            lightbox.classList.remove(\x27active\x27);
            document.body.style.overflow = \x27\x27;
        \x7d

        function changeImage(direction) \x7b
            currentIndex = (currentIndex + direction + images.length) % images.length;
            showImage();
        \x7d

        function showImage() \x7b
            const img = document.getElementById(\x27lightbox-image\x27);
            const counter = document.getElementById(\x27lightbox-counter\x27);
            img.src = images[currentIndex];
            counter.textContent = \x60$\x7bcurrentIndex + 1\x7d / $\x7bimages.length\x7d\x60;
        \x7d

        // Keyboard navigation
        document.addEventListener(\x27keydown\x27, (e) => \x7b
            const lightbox = document.getElementById(\x27lightbox\x27);
            if (!lightbox.classList.contains(\x27active\x27)) return;

            if (e.key === \x27Escape\x27) \x7b
                closeLightbox();
            \x7d else if (e.key === \x27ArrowLeft\x27) \x7b
                changeImage(-1);
            \x7d else if (e.key === \x27ArrowRight\x27) \x7b
                changeImage(1);
            \x7d
        \x7d);

        // Close on background click
        document.getElementById(\x27lightbox\x27).addEventListener(\x27click\x27, (e) => \x7b
            if (e.target.id === \x27lightbox\x27) \x7b
                closeLightbox();
            \x7d
        \x7d);
    </script>
</body>
</html>"

/-- `generate_html_template` (lines 91-371): the document is the literal
segments with `title` (twice), `items_html` and `images_json` interpolated
verbatim. -/
def generate_html_template (items : List GalleryItem) (title : String) : String :=
  tplA ++ title ++ tplB ++ title ++ tplC ++ items_html items ++ tplD
    ++ images_json items ++ tplE

/-- The generated script's click resolution: clicking the grid cell at
display position `cell` calls `openLightbox` with that cell's embedded
index, which `showImage` uses to subscript the `images` array
(lines 323-346 of the generated page). -/
def clickTarget (items : List GalleryItem) (cell : Nat) : Option String :=
  match items[cell]? with
  | none => none
  | some it => (items.map (fun i => i.full))[it.index]?

/-! ## Gallery assembly (`generate_gallery_html`, lines 50-89) and `main`
(lines 373-399)

Filesystem and console work is modelled as an explicit trace of effects, in
program order.  A source image carries its path, its filename, its stem and
the outcome of decoding it (`Image.open`); the decode outcome is the
environment's contribution, passed in as data. -/

/-- One discovered source image: full path, filename, file stem, and what
`Image.open` yields for it (`none` = decode failure). -/
structure SrcImage where
  path : String
  name : String
  stem : String
  decoded : Option DecodedImage
deriving DecidableEq, Repr

/-- One observable effect of the run, in program order. -/
inductive Eff
  | mkdirP (path : String)
  | mkdir (path : String)
  | copy2 (src dst : String)
  | printMsg (msg : String)
  | writeFile (path content : String)
deriving DecidableEq, Repr

/-- Effects that create or modify files or directories (everything except
console output). -/
def Eff.isOutputWrite : Eff → Bool
  | .printMsg _ => false
  | _ => true

/-- Python `enumerate` starting at `n`. -/
def pyEnum (n : Nat) : List α → List (Nat × α)
  | [] => []
  | x :: xs => (n, x) :: pyEnum (n + 1) xs

/-- The `gallery_items` list built by the loop on lines 62-78: enumerate all
discovered images, attempt a thumbnail for each, and append an entry exactly
when the thumbnail succeeded — with `index` taken from the enumeration over
the whole discovered list (`idx`), not from the length of the accumulator. -/
def galleryStep (enc : EncodeFn) (p : Nat × SrcImage) : Option GalleryItem :=
  (create_thumbnail enc p.2.decoded 400).map fun t =>
    { thumb := t, full := "images/" ++ p.2.name, name := p.2.stem, index := p.1 }

/-- The full accumulated `gallery_items` list: one step per enumerated
discovered image, entries kept exactly when the thumbnail succeeded. -/
def galleryItems (enc : EncodeFn) (imgs : List SrcImage) : List GalleryItem :=
  (pyEnum 0 imgs).filterMap (galleryStep enc)

/-- The failure log line printed inside `create_thumbnail`'s handler
(line 39).  The Python message appends `: {e}`; the exception text comes
from the external codec and is outside the model. -/
def thumbErrMsg (img : SrcImage) : String :=
  "Error creating thumbnail for " ++ img.path

/-- Effects of one iteration of the loop on lines 62-78: copy the original
into `images/` first, print the progress line, then attempt the thumbnail
(whose failure logs and yields no entry).  The copy is unconditional and
nothing later removes it. -/
def perImageEffects (enc : EncodeFn) (outDir : String) (img : SrcImage) :
    List Eff :=
  [.copy2 img.path (outDir ++ "/images/" ++ img.name),
   .printMsg ("Processing " ++ img.name ++ "...")]
  ++ (if (create_thumbnail enc img.decoded 400).isSome then []
      else [.printMsg (thumbErrMsg img)])

/-- `generate_gallery_html` (lines 50-89) as an effect trace: create the
output directory and its `images` subdirectory, process every image in
order, write `index.html`, and print the summary. -/
def galleryEffects (enc : EncodeFn) (imgs : List SrcImage)
    (outDir title : String) : List Eff :=
  [.mkdirP outDir, .mkdir (outDir ++ "/images")]
  ++ (imgs.map (perImageEffects enc outDir)).flatten
  ++ [.writeFile (outDir ++ "/index.html")
        (generate_html_template (galleryItems enc imgs) title),
      .printMsg "\n✓ Gallery generated successfully!",
      .printMsg ("  Output: " ++ outDir ++ "/index.html"),
      .printMsg ("  Images: " ++ toString (galleryItems enc imgs).length)]

/-- The stem of a filename (`pathlib.PurePath.stem`): the name with its
suffix removed. -/
def path_stem (name : String) : String :=
  ⟨name.toList.take (name.toList.length - (path_suffix name).toList.length)⟩

/-- A discovered entry as the `SrcImage` the assembler sees: `Image.open`'s
outcome for its path is looked up in the environment `decodeOf`. -/
def toSrcImage (inputDir : String) (decodeOf : String → Option DecodedImage)
    (e : Entry) : SrcImage :=
  { path := inputDir ++ "/" ++ e.name, name := e.name,
    stem := path_stem e.name, decoded := decodeOf e.name }

/-- `main` (lines 373-399): validate the input directory (`os.path.isdir`,
passed in as `isDirValid`), discover images, stop with a message when the
directory is invalid or no images are found, otherwise print the count and
run the gallery build.  The source's error paths `return` from `main`
without `sys.exit`, so the process ends normally either way. -/
def mainRun (isDirValid : Bool) (inputDir outDir title : String)
    (entries : List Entry) (decodeOf : String → Option DecodedImage)
    (enc : EncodeFn) : List Eff :=
  if isDirValid = false then
    [.printMsg ("Error: \x27" ++ inputDir ++ "\x27 is not a valid directory")]
  else
    let images := get_image_files entries
    if images.isEmpty then
      [.printMsg ("No images found in \x27" ++ inputDir ++ "\x27")]
    else
      .printMsg ("Found " ++ toString images.length ++ " images")
        :: galleryEffects enc (images.map (toSrcImage inputDir decodeOf)) outDir title

/-! ## Verbatim containment

`containsVerbatim doc piece` says `piece` occurs character-for-character
(unescaped) inside `doc`. -/

/-- `piece` occurs character-for-character inside `doc`. -/
def containsVerbatim (doc piece : String) : Prop :=
  ∃ p q, doc = p ++ (piece ++ q)

/-! ## Concrete fixtures used by witnesses and counterexamples -/

/-- A constant codec byte output for concrete runs (`TQL/` in base64). -/
def encConst : EncodeFn := fun _ _ _ => [77, 2, 255]

/-- A 1×1 opaque RGB image. -/
def imgRGB1 : DecodedImage := ⟨.RGB, 1, 1, [⟨10, 20, 30, 255⟩]⟩

/-- A 1×1 LA-mode image whose single pixel is fully transparent: it carries
an alpha channel but its mode is not RGBA. -/
def imgLA0 : DecodedImage := ⟨.LA, 1, 1, [⟨7, 7, 7, 0⟩]⟩

/-- A 1×2 RGBA image with one fully transparent and one opaque pixel. -/
def imgRGBA2 : DecodedImage := ⟨.RGBA, 1, 2, [⟨0, 0, 0, 0⟩, ⟨10, 20, 30, 255⟩]⟩

/-- `a.jpg`, decodes fine. -/
def srcOkA : SrcImage := ⟨"photos/a.jpg", "a.jpg", "a", some imgRGB1⟩

/-- `b.jpg`: a supported extension whose content fails to decode. -/
def srcBadB : SrcImage := ⟨"photos/b.jpg", "b.jpg", "b", none⟩

/-- `c.jpg`, decodes fine. -/
def srcOkC : SrcImage := ⟨"photos/c.jpg", "c.jpg", "c", some imgRGB1⟩

/-- Five decodable images for the 5-valid-plus-1-corrupt scenario. -/
def fiveGood : List SrcImage :=
  [⟨"photos/p1.jpg", "p1.jpg", "p1", some imgRGB1⟩,
   ⟨"photos/p2.jpg", "p2.jpg", "p2", some imgRGB1⟩,
   ⟨"photos/p3.jpg", "p3.jpg", "p3", some imgRGB1⟩,
   ⟨"photos/p4.jpg", "p4.jpg", "p4", some imgRGB1⟩,
   ⟨"photos/p5.jpg", "p5.jpg", "p5", some imgRGB1⟩]

/-- An entry list whose display name and full-size path carry
markup-special characters. -/
def specialItems : List GalleryItem :=
  [⟨"data:image/jpeg;base64,TQL/", "images/a\"<b>.jpg", "a\"<b>", 0⟩]

/-! # Lemmas and claim theorems -/

/-! ## Order facts for the discovery sort -/

theorem lexLE_total : ∀ a b : List Char, lexLE a b = true ∨ lexLE b a = true
  | [], _ => Or.inl rfl
  | _ :: _, [] => Or.inr rfl
  | a :: as, b :: bs => by
      rcases Nat.lt_trichotomy a.toNat b.toNat with h | h | h
      · left; simp [lexLE, h]
      · rcases lexLE_total as bs with ih | ih
        · left; simp [lexLE, h, ih]
        · right; simp [lexLE, h.symm, ih]
      · right; simp [lexLE, h]

theorem lexLE_trans : ∀ a b c : List Char,
    lexLE a b = true → lexLE b c = true → lexLE a c = true
  | [], _, _ => fun _ _ => rfl
  | _ :: _, [], _ => fun h _ => by simp [lexLE] at h
  | _ :: _, _ :: _, [] => fun _ h => by simp [lexLE] at h
  | a :: as, b :: bs, c :: cs => fun h1 h2 => by
      simp only [lexLE] at h1 h2 ⊢
      split_ifs at h1 h2 ⊢ <;> try rfl
      all_goals first
        | omega
        | (exact lexLE_trans as bs cs h1 h2)

instance : IsTotal Entry entryLE := ⟨fun a b => lexLE_total a.name.data b.name.data⟩

instance : IsTrans Entry entryLE :=
  ⟨fun a b c => lexLE_trans a.name.data b.name.data c.name.data⟩

/-! ## Containment kit -/

theorem cv_self (x : String) : containsVerbatim x x :=
  ⟨"", "", by rw [String.empty_append, String.append_empty]⟩

theorem cv_left (s : String) {d piece : String} (h : containsVerbatim d piece) :
    containsVerbatim (s ++ d) piece := by
  obtain ⟨p, q, rfl⟩ := h
  exact ⟨s ++ p, q, (String.append_assoc s p _).symm⟩

theorem cv_right (s : String) {d piece : String} (h : containsVerbatim d piece) :
    containsVerbatim (d ++ s) piece := by
  obtain ⟨p, q, rfl⟩ := h
  refine ⟨p, q ++ s, ?_⟩
  rw [String.append_assoc, String.append_assoc]

theorem cv_trans {d m piece : String} (h1 : containsVerbatim d m)
    (h2 : containsVerbatim m piece) : containsVerbatim d piece := by
  obtain ⟨p, q, rfl⟩ := h1
  exact cv_left p (cv_right q h2)

theorem mem_joinSep {x : String} (sep : String) :
    ∀ l : List String, x ∈ l → containsVerbatim (joinSep sep l) x
  | [], h => absurd h (List.not_mem_nil x)
  | [_], h => by
      rcases List.mem_singleton.mp h with rfl
      simpa only [joinSep] using cv_self x
  | y :: z :: zs, h => by
      rcases List.mem_cons.mp h with rfl | h2
      · simpa only [joinSep] using
          cv_right (joinSep sep (z :: zs)) (cv_right sep (cv_self x))
      · simpa only [joinSep] using
          cv_left (y ++ sep) (mem_joinSep sep (z :: zs) h2)

theorem title_in_doc (items : List GalleryItem) (title : String) :
    containsVerbatim (generate_html_template items title) title := by
  unfold generate_html_template
  exact cv_right _ (cv_right _ (cv_right _ (cv_right _ (cv_right _ (cv_right _
    (cv_right _ (cv_left tplA (cv_self title))))))))

theorem itemsHtml_in_doc (items : List GalleryItem) (title : String) :
    containsVerbatim (generate_html_template items title) (items_html items) := by
  unfold generate_html_template
  exact cv_right _ (cv_right _ (cv_right _ (cv_left _ (cv_self _))))

theorem imagesJson_in_doc (items : List GalleryItem) (title : String) :
    containsVerbatim (generate_html_template items title) (images_json items) := by
  unfold generate_html_template
  exact cv_right _ (cv_left _ (cv_self _))

theorem alt_in_cell (item : GalleryItem) :
    containsVerbatim (cellString item) ("alt=\"" ++ item.name ++ "\"") := by
  unfold cellString
  exact cv_right _ (cv_left _ (cv_self _))

theorem full_in_imagesJson {e : GalleryItem} (items : List GalleryItem)
    (h : e ∈ items) :
    containsVerbatim (images_json items) ("\"" ++ e.full ++ "\"") := by
  unfold images_json
  exact cv_right "]" (cv_left "["
    (mem_joinSep "," _ (List.mem_map_of_mem _ h)))

/-! ## Enumeration lemmas for the assembler loop -/

theorem pyEnum_append (n : Nat) (l1 l2 : List α) :
    pyEnum n (l1 ++ l2) = pyEnum n l1 ++ pyEnum (n + l1.length) l2 := by
  induction l1 generalizing n with
  | nil => simp [pyEnum]
  | cons x xs ih =>
      have h : n + 1 + xs.length = n + (xs.length + 1) := by omega
      simp only [List.cons_append, pyEnum, List.length_cons, List.append_eq]
      rw [ih, h]

theorem allSome_names (enc : EncodeFn) :
    ∀ (n : Nat) (l : List SrcImage),
      (∀ im ∈ l, (create_thumbnail enc im.decoded 400).isSome = true) →
      ((pyEnum n l).filterMap (galleryStep enc)).map (fun i => i.name)
        = l.map (fun im => im.stem)
  | _, [], _ => rfl
  | n, x :: xs, h => by
      rcases Option.isSome_iff_exists.mp (h x (List.mem_cons_self x xs)) with ⟨t, ht⟩
      have hstep : galleryStep enc (n, x)
          = some ⟨t, "images/" ++ x.name, x.stem, n⟩ := by
        simp [galleryStep, ht]
      simp only [pyEnum, List.filterMap_cons, hstep, List.map_cons]
      exact congrArg (x.stem :: ·)
        (allSome_names enc (n + 1) xs fun im hm => h im (List.mem_cons_of_mem x hm))

theorem allSome_length (enc : EncodeFn) (n : Nat) (l : List SrcImage)
    (h : ∀ im ∈ l, (create_thumbnail enc im.decoded 400).isSome = true) :
    ((pyEnum n l).filterMap (galleryStep enc)).length = l.length := by
  have h2 := congrArg List.length (allSome_names enc n l h)
  simpa using h2

/-! ## The claims -/

/-- C1: the claim says the emitted entries' `index` fields are the contiguous
sequence `0..K-1` over the successes.  The code instead takes `index` from
`enumerate` over all discovered images: with `a.jpg` fine, `b.jpg` failing
to decode and `c.jpg` fine, the two emitted entries carry index fields
`[0, 2]`, not `[0, 1]` — a gap the generated page's own script cannot
resolve. -/
theorem C1_emitted_indices_not_contiguous :
    (galleryItems encConst [srcOkA, srcBadB, srcOkC]).map (fun i => i.index)
        = [0, 2] ∧
    (galleryItems encConst [srcOkA, srcBadB, srcOkC]).length = 2 ∧
    (galleryItems encConst [srcOkA, srcBadB, srcOkC]).map (fun i => i.index)
        ≠ List.range 2 := by
  refine ⟨by decide, by decide, by decide⟩

/-- C2: the claim says the index embedded in grid cell `i` equals `i`, so a
click resolves to array position `i` of the same image.  After one failure
(`b.jpg`) followed by one success (`c.jpg`), the single grid cell (display
position 0) embeds index 1 while the client array has exactly one element, so
the click resolves to no array element at all. -/
theorem C2_click_resolves_out_of_bounds :
    (galleryItems encConst [srcBadB, srcOkC]).map (fun i => i.index) = [1] ∧
    images_json (galleryItems encConst [srcBadB, srcOkC])
        = "[\"images/c.jpg\"]" ∧
    items_html (galleryItems encConst [srcBadB, srcOkC])
        = "        <div class=\"gallery-item\" data-index=\"1\" onclick=\"openLightbox(1)\">\n            <img src=\"data:image/jpeg;base64,TQL/\" alt=\"c\" loading=\"lazy\">\n        </div>" ∧
    clickTarget (galleryItems encConst [srcBadB, srcOkC]) 0 = none := by
  refine ⟨by decide, by decide, by decide, by decide⟩

/-- C3: a single thumbnail failure among the discovered images is caught and
logged with the file's path, produces no gallery entry, leaves every other
image processed (the emitted names are exactly the stems of the others, in
order), and the build still writes `index.html`. -/
theorem C3_one_failure_isolated (enc : EncodeFn) (pre post : List SrcImage)
    (bad : SrcImage) (outDir title : String)
    (hbad : create_thumbnail enc bad.decoded 400 = none)
    (hpre : ∀ im ∈ pre, (create_thumbnail enc im.decoded 400).isSome = true)
    (hpost : ∀ im ∈ post, (create_thumbnail enc im.decoded 400).isSome = true) :
    (galleryItems enc (pre ++ bad :: post)).map (fun i => i.name)
        = (pre ++ post).map (fun im => im.stem) ∧
    (galleryItems enc (pre ++ bad :: post)).length = pre.length + post.length ∧
    Eff.printMsg (thumbErrMsg bad)
        ∈ galleryEffects enc (pre ++ bad :: post) outDir title ∧
    Eff.writeFile (outDir ++ "/index.html")
        (generate_html_template (galleryItems enc (pre ++ bad :: post)) title)
        ∈ galleryEffects enc (pre ++ bad :: post) outDir title := by
  have hb : galleryStep enc (pre.length, bad) = none := by
    simp [galleryStep, hbad]
  have hsplit : galleryItems enc (pre ++ bad :: post)
      = ((pyEnum 0 pre).filterMap (galleryStep enc))
        ++ ((pyEnum (pre.length + 1) post).filterMap (galleryStep enc)) := by
    unfold galleryItems
    rw [pyEnum_append, List.filterMap_append]
    simp only [pyEnum, List.filterMap_cons, hb, Nat.zero_add]
  refine ⟨?_, ?_, ?_, ?_⟩
  · rw [hsplit, List.map_append, allSome_names enc 0 pre hpre,
      allSome_names enc (pre.length + 1) post hpost, ← List.map_append]
  · rw [hsplit, List.length_append, allSome_length enc 0 pre hpre,
      allSome_length enc (pre.length + 1) post hpost]
  · unfold galleryEffects
    apply List.mem_append_left
    apply List.mem_append_right
    rw [List.mem_flatten]
    refine ⟨perImageEffects enc outDir bad, List.mem_map_of_mem _ ?_, ?_⟩
    · exact List.mem_append_right _ (List.mem_cons_self _ _)
    · simp [perImageEffects, hbad]
  · unfold galleryEffects
    exact List.mem_append_right _ (List.mem_cons_self _ _)

/-- C3 witness: five decodable images plus one corrupt file yield exactly
five entries, and the corrupt file's failure is logged. -/
theorem C3_witness :
    create_thumbnail encConst srcBadB.decoded 400 = none ∧
    (galleryItems encConst (fiveGood ++ srcBadB :: [])).length = 5 ∧
    Eff.printMsg (thumbErrMsg srcBadB)
        ∈ galleryEffects encConst (fiveGood ++ srcBadB :: [])
            "gallery" "Photo Gallery" := by
  have h := C3_one_failure_isolated encConst fiveGood [] srcBadB
    "gallery" "Photo Gallery" rfl (by decide) (by decide)
  exact ⟨rfl, by simpa using h.2.1, h.2.2.1⟩

/-- C4 counterexample: a subdirectory named `album.jpg` is returned by
Discovery, so "a subdirectory is never in the returned sequence regardless
of its name" fails. -/
theorem C4_counterexample_subdir :
    get_image_files [⟨"album.jpg", true⟩] = [⟨"album.jpg", true⟩] ∧
    (⟨"album.jpg", true⟩ : Entry).isDir = true := by
  refine ⟨by decide, rfl⟩

/-- C4 (amended): Discovery returns exactly the listing's entries — files or
subdirectories alike — whose extension is (case-insensitively) supported, in
lexicographic name order; the filter never consults the file/directory
kind. -/
theorem C4_discovery_filter (entries : List Entry) :
    (∀ e : Entry,
      e ∈ get_image_files entries ↔ e ∈ entries ∧ supportedEntry e = true) ∧
    List.Sorted entryLE (get_image_files entries) := by
  constructor
  · intro e
    unfold get_image_files
    rw [List.mem_filter, List.mem_insertionSort]
  · exact (List.sorted_insertionSort entryLE entries).filter supportedEntry

/-- C5 counterexample: an LA-mode image carries an alpha channel but is not
flattened (the RGBA test fails), and it produces no thumbnail at all — the
JPEG encode refuses the mode. -/
theorem C5_counterexample_la_not_flattened :
    hasAlpha imgLA0.mode = true ∧ flattenStep imgLA0 = imgLA0 ∧
    create_thumbnail encConst (some imgLA0) 400 = none := by
  refine ⟨rfl, by decide, rfl⟩

/-- C5 (amended): exactly the RGBA-mode images are flattened onto opaque
white before resizing and encoding: the flattened image is RGB with every
alpha 255, each pixel is the white-composite of the original (so fully
transparent pixels become white), and the thumbnail pipeline succeeds for
any encoder. -/
theorem C5_rgba_flattened_opaque (img : DecodedImage)
    (h : img.mode = PILMode.RGBA) :
    (flattenStep img).mode = PILMode.RGB ∧
    (flattenStep img).px = img.px.map compositePixelWhite ∧
    (∀ p ∈ (flattenStep img).px, p.a = 255) ∧
    (∀ p : Px, p.a = 0 → compositePixelWhite p = ⟨255, 255, 255, 255⟩) ∧
    ∀ enc : EncodeFn, (create_thumbnail enc (some img) 400).isSome = true := by
  have hf : flattenStep img = compositeWhite img := by simp [flattenStep, h]
  have hwhite : ∀ c : Nat, blendWhite c 0 = 255 := fun c => by
    simp [blendWhite]
  refine ⟨by rw [hf]; rfl, by rw [hf]; rfl, ?_, ?_, ?_⟩
  · rw [hf]
    intro p hp
    rcases List.mem_map.mp hp with ⟨q, _, rfl⟩
    rfl
  · intro p hp
    simp [compositePixelWhite, hp, hwhite]
  · intro enc
    have hmode : (pilThumbnail (flattenStep img) 400).mode = PILMode.RGB := by
      rw [hf]
      unfold pilThumbnail
      split <;> rfl
    simp [create_thumbnail, jpegEncode, hmode, jpegWritable]

/-- C5 witness: the concrete RGBA fixture is flattened to opaque RGB and its
transparent pixel becomes white. -/
theorem C5_witness :
    imgRGBA2.mode = PILMode.RGBA ∧
    ((flattenStep imgRGBA2).mode = PILMode.RGB ∧
     (flattenStep imgRGBA2).px = imgRGBA2.px.map compositePixelWhite ∧
     (∀ p ∈ (flattenStep imgRGBA2).px, p.a = 255) ∧
     (∀ p : Px, p.a = 0 → compositePixelWhite p = ⟨255, 255, 255, 255⟩) ∧
     ∀ enc : EncodeFn,
       (create_thumbnail enc (some imgRGBA2) 400).isSome = true) :=
  ⟨rfl, C5_rgba_flattened_opaque imgRGBA2 rfl⟩

/-- C6 counterexample: a directory containing only a subdirectory named
`x.jpg` holds zero files with a supported extension, yet the run does not
print the no-images message — it reports one image found and starts creating
the output directory. -/
theorem C6_counterexample_dir_with_extension :
    (∀ e ∈ ([⟨"x.jpg", true⟩] : List Entry), e.isDir = true) ∧
    (mainRun true "photos" "gallery" "Photo Gallery" [⟨"x.jpg", true⟩]
        (fun _ => none) encConst)[0]?
      = some (Eff.printMsg "Found 1 images") ∧
    (mainRun true "photos" "gallery" "Photo Gallery" [⟨"x.jpg", true⟩]
        (fun _ => none) encConst)[1]?
      = some (Eff.mkdirP "gallery") := by
  refine ⟨by decide, by decide, rfl⟩

/-- C6 (amended): when no directory entry (file or subdirectory) has a
supported extension, the run prints the no-images message and performs no
filesystem write at all. -/
theorem C6_no_images_no_output (inputDir outDir title : String)
    (entries : List Entry) (decodeOf : String → Option DecodedImage)
    (enc : EncodeFn) (h : ∀ e ∈ entries, supportedEntry e = false) :
    mainRun true inputDir outDir title entries decodeOf enc
        = [Eff.printMsg ("No images found in \x27" ++ inputDir ++ "\x27")] ∧
    ∀ eff ∈ mainRun true inputDir outDir title entries decodeOf enc,
      eff.isOutputWrite = false := by
  have hempty : get_image_files entries = [] := by
    unfold get_image_files
    rw [List.filter_eq_nil_iff]
    intro a ha
    simp [h a ((List.mem_insertionSort entryLE).mp ha)]
  have hmain : mainRun true inputDir outDir title entries decodeOf enc
      = [Eff.printMsg ("No images found in \x27" ++ inputDir ++ "\x27")] := by
    simp [mainRun, hempty]
  refine ⟨hmain, ?_⟩
  intro eff he
  rw [hmain] at he
  rcases List.mem_singleton.mp he with rfl
  rfl

/-- C6 witness: a directory holding only `notes.txt` triggers the no-images
stop with no output writes. -/
theorem C6_witness :
    (∀ e ∈ ([⟨"notes.txt", false⟩] : List Entry), supportedEntry e = false) ∧
    (mainRun true "photos" "gallery" "Photo Gallery" [⟨"notes.txt", false⟩]
        (fun _ => none) encConst
      = [Eff.printMsg ("No images found in \x27photos\x27")] ∧
     ∀ eff ∈ mainRun true "photos" "gallery" "Photo Gallery"
        [⟨"notes.txt", false⟩] (fun _ => none) encConst,
       eff.isOutputWrite = false) :=
  ⟨by decide, C6_no_images_no_output "photos" "gallery" "Photo Gallery"
    [⟨"notes.txt", false⟩] (fun _ => none) encConst (by decide)⟩

/-- C7: when the input path is not a valid directory, the run prints the
error and stops: its whole effect trace is that one message, with no
filesystem write.  (The source `return`s from `main` without `sys.exit`;
the spec labels this stop-without-output a "non-zero-equivalent"
failure.) -/
theorem C7_invalid_dir_stops (inputDir outDir title : String)
    (entries : List Entry) (decodeOf : String → Option DecodedImage)
    (enc : EncodeFn) :
    mainRun false inputDir outDir title entries decodeOf enc
        = [Eff.printMsg
            ("Error: \x27" ++ inputDir ++ "\x27 is not a valid directory")] ∧
    ∀ eff ∈ mainRun false inputDir outDir title entries decodeOf enc,
      eff.isOutputWrite = false := by
  refine ⟨rfl, ?_⟩
  intro eff he
  have h0 : mainRun false inputDir outDir title entries decodeOf enc
      = [Eff.printMsg
          ("Error: \x27" ++ inputDir ++ "\x27 is not a valid directory")] := rfl
  rw [h0] at he
  rcases List.mem_singleton.mp he with rfl
  rfl

/-- C8: whenever `create_thumbnail` succeeds, its result is exactly the
data-URI wrapping — the `data:image/jpeg;base64,` media-type prefix followed
by the base64 encoding of the codec's bytes for the flattened, fitted image
at quality 85 with optimization on. -/
theorem C8_thumbnail_data_uri (enc : EncodeFn) (d : Option DecodedImage)
    (m : Nat) (s : String) (h : create_thumbnail enc d m = some s) :
    ∃ img : DecodedImage, d = some img ∧
      s = "data:image/jpeg;base64,"
        ++ base64Encode (enc (pilThumbnail (flattenStep img) m) 85 true) := by
  cases d with
  | none => exact absurd h (by simp [create_thumbnail])
  | some img =>
      refine ⟨img, rfl, ?_⟩
      by_cases hw : jpegWritable (pilThumbnail (flattenStep img) m).mode = true
      · simp only [create_thumbnail, jpegEncode, hw, if_true,
          Option.some.injEq] at h
        exact h.symm
      · simp [create_thumbnail, jpegEncode, hw] at h

/-- C8 witness: the RGB fixture's thumbnail is the data URI of the constant
codec bytes. -/
theorem C8_witness :
    create_thumbnail encConst (some imgRGB1) 400
        = some "data:image/jpeg;base64,TQL/" ∧
    ∃ img : DecodedImage, some imgRGB1 = some img ∧
      "data:image/jpeg;base64,TQL/" = "data:image/jpeg;base64,"
        ++ base64Encode (encConst (pilThumbnail (flattenStep img) 400) 85 true) :=
  ⟨by decide,
   C8_thumbnail_data_uri encConst (some imgRGB1) 400
     "data:image/jpeg;base64,TQL/" (by decide)⟩

/-- C9: every discovered image is copied into `images/` before its thumbnail
is attempted — the copy is the first effect of the per-image block — and a
thumbnail failure leaves the copy in the trace (no effect removes it), so a
failed image still has its full-size copy in the output tree. -/
theorem C9_copy_precedes_thumbnail (enc : EncodeFn) (imgs : List SrcImage)
    (outDir title : String) (img : SrcImage) (h1 : img ∈ imgs)
    (h2 : create_thumbnail enc img.decoded 400 = none) :
    Eff.copy2 img.path (outDir ++ "/images/" ++ img.name)
        ∈ galleryEffects enc imgs outDir title ∧
    perImageEffects enc outDir img
        = [Eff.copy2 img.path (outDir ++ "/images/" ++ img.name),
           Eff.printMsg ("Processing " ++ img.name ++ "..."),
           Eff.printMsg (thumbErrMsg img)] := by
  have hper : perImageEffects enc outDir img
      = [Eff.copy2 img.path (outDir ++ "/images/" ++ img.name),
         Eff.printMsg ("Processing " ++ img.name ++ "..."),
         Eff.printMsg (thumbErrMsg img)] := by
    simp [perImageEffects, h2]
  refine ⟨?_, hper⟩
  unfold galleryEffects
  apply List.mem_append_left
  apply List.mem_append_right
  rw [List.mem_flatten]
  refine ⟨perImageEffects enc outDir img, List.mem_map_of_mem _ h1, ?_⟩
  rw [hper]
  exact List.mem_cons_self _ _

/-- C9 witness: the undecodable `b.jpg` still has its copy effect, placed
before the thumbnail attempt in its per-image block. -/
theorem C9_witness :
    srcBadB ∈ [srcOkA, srcBadB] ∧
    create_thumbnail encConst srcBadB.decoded 400 = none ∧
    (Eff.copy2 srcBadB.path ("gallery" ++ "/images/" ++ srcBadB.name)
        ∈ galleryEffects encConst [srcOkA, srcBadB] "gallery" "Photo Gallery" ∧
     perImageEffects encConst "gallery" srcBadB
        = [Eff.copy2 srcBadB.path ("gallery" ++ "/images/" ++ srcBadB.name),
           Eff.printMsg ("Processing " ++ srcBadB.name ++ "..."),
           Eff.printMsg (thumbErrMsg srcBadB)]) :=
  ⟨by decide, rfl,
   C9_copy_precedes_thumbnail encConst [srcOkA, srcBadB] "gallery"
     "Photo Gallery" srcBadB (by decide) rfl⟩

/-- C10: the title, each entry's display name and each full-size reference
path are interpolated into the rendered document character-for-character —
the title verbatim, the name verbatim inside its quoted `alt` attribute, the
path verbatim inside its quoted array literal — with no escaping applied. -/
theorem C10_verbatim_no_escaping (items : List GalleryItem) (title : String)
    (e : GalleryItem) (h : e ∈ items) :
    containsVerbatim (generate_html_template items title) title ∧
    containsVerbatim (generate_html_template items title)
      ("alt=\"" ++ e.name ++ "\"") ∧
    containsVerbatim (generate_html_template items title)
      ("\"" ++ e.full ++ "\"") := by
  refine ⟨title_in_doc items title, ?_, ?_⟩
  · exact cv_trans (itemsHtml_in_doc items title)
      (cv_trans (mem_joinSep "\n" _ (List.mem_map_of_mem cellString h))
        (alt_in_cell e))
  · exact cv_trans (imagesJson_in_doc items title) (full_in_imagesJson items h)

/-- C10 witness: a title and a name holding quotes and angle brackets land
verbatim in the rendered document. -/
theorem C10_witness :
    (⟨"data:image/jpeg;base64,TQL/", "images/a\"<b>.jpg", "a\"<b>", 0⟩
        : GalleryItem) ∈ specialItems ∧
    (containsVerbatim
        (generate_html_template specialItems "My \"Photo\" <Gallery>")
        "My \"Photo\" <Gallery>" ∧
     containsVerbatim
        (generate_html_template specialItems "My \"Photo\" <Gallery>")
        ("alt=\"" ++ "a\"<b>" ++ "\"") ∧
     containsVerbatim
        (generate_html_template specialItems "My \"Photo\" <Gallery>")
        ("\"" ++ "images/a\"<b>.jpg" ++ "\"")) :=
  ⟨by decide,
   C10_verbatim_no_escaping specialItems "My \"Photo\" <Gallery>"
     ⟨"data:image/jpeg;base64,TQL/", "images/a\"<b>.jpg", "a\"<b>", 0⟩
     (by decide)⟩

end StaticGalGen
